import Mathlib

/-!
Verification development for the ZCLI interpreter (src/ZCLI.py).

The interpreter is shallowly embedded as pure Lean functions:
  - interpreter state (variables, program buffer, mode, session history,
    last-input slot) is the structure ZState;
  - console output is a list of OutItem values;
  - the interactive input stream is an explicit list of pending lines;
  - the filesystem is an explicit association list from path to file lines,
    and file writes are collected in a list (path, written text);
  - sys.exit(code) is modelled by the field exited := some code.

Python string primitives (str.strip, str.lower, str.split(maxsplit=2),
re.split on a colon with optional surrounding whitespace, the trailing
color-tag regex) are implemented by structural recursion on lists of
characters, restricted to ASCII whitespace, which is all the program uses.
-/

/-- ASCII whitespace, as recognised by Python's str.strip / str.split /
the regex class backslash-s. -/
def pyWs (c : Char) : Bool :=
  c == ' ' || c == '\t' || c == '\n' || c == '\r' || c == '\x0b' || c == '\x0c'

/-- Trim leading and trailing whitespace from a character list. -/
def trimChars (l : List Char) : List Char :=
  ((l.dropWhile pyWs).reverse.dropWhile pyWs).reverse

/-- Python str.strip() (ASCII whitespace). -/
def pyStrip (s : String) : String := String.mk (trimChars s.data)

/-- Python str.lower() (ASCII). -/
def pyLower (s : String) : String := String.mk (s.data.map Char.toLower)

/-- Python str.startswith. -/
def myStartsWith (s p : String) : Bool := p.data.isPrefixOf s.data

/-- Python str.endswith. -/
def myEndsWith (s p : String) : Bool := p.data.reverse.isPrefixOf s.data.reverse

/-- Python slicing s[n:] (indices are code points). -/
def strDrop (s : String) (n : Nat) : String := String.mk (s.data.drop n)

/-- Python slicing s[1:-1]: drop the first and the last character. -/
def pySlice1 (s : String) : String := String.mk ((s.data.drop 1).dropLast)

/-- Python "".join(parts). -/
def strJoin : List String → String
  | [] => ""
  | [s] => s
  | s :: rest => s ++ strJoin rest

/-- Python str.split(maxsplit=n): skip leading whitespace; while more than
zero splits remain take a maximal non-whitespace token; the final part is
the remaining text verbatim (leading whitespace consumed, trailing kept). -/
def pySplitCore : Nat → List Char → List (List Char)
  | n, l =>
    let l1 := l.dropWhile pyWs
    match l1 with
    | [] => []
    | _ =>
      match n with
      | 0 => [l1]
      | Nat.succ m =>
          (l1.takeWhile (fun c => !(pyWs c))) ::
            pySplitCore m (l1.dropWhile (fun c => !(pyWs c)))

/-- Python processed_line.split(maxsplit=2). -/
def pySplitMax2 (s : String) : List String :=
  (pySplitCore 2 s.data).map String.mk

/-- Split a character list at every colon (the colon is consumed). -/
def splitColonCore : List Char → List (List Char)
  | [] => [[]]
  | c :: cs =>
    if c == ':' then [] :: splitColonCore cs
    else
      match splitColonCore cs with
      | [] => [[c]]
      | g :: gs => (c :: g) :: gs

/-- The source splits the argument with re.split of a colon with optional
surrounding whitespace and then strips every part.  Since each match of
that pattern contains exactly one colon and only whitespace otherwise,
this equals splitting at every colon and stripping every part. -/
def chainParts (s : String) : List String :=
  (splitColonCore s.data).map (fun l => String.mk (trimChars l))

/-- Characters allowed in the color-tag argument: [a-zA-Z0-9#]. -/
def colorTokChar (c : Char) : Bool := c.isAlpha || c.isDigit || c == '#'

/-- Recognise the trailing color tag, working on the reversed character
list: optional whitespace, then the two closing parentheses, then a
non-empty run of token characters, then at least one whitespace character,
then the literal text ((color.  Returns the reversed remaining text and
the token.  This matches the source regex anchored at the end of the line,
as removed by re.sub. -/
def parseColorRev (r : List Char) : Option (List Char × List Char) :=
  match r.dropWhile pyWs with
  | ')' :: ')' :: r2 =>
    let tokRev := r2.takeWhile colorTokChar
    let r3 := r2.dropWhile colorTokChar
    if tokRev.isEmpty then none
    else
      match r3 with
      | c :: _ =>
        if pyWs c then
          let r4 := r3.dropWhile pyWs
          if ['r', 'o', 'l', 'o', 'c', '(', '('].isPrefixOf r4 then
            some (r4.drop 7, tokRev.reverse)
          else none
        else none
      | [] => none
  | _ => none

/-- Remove an optional trailing ((color name-or-hex)) tag and strip the
rest (source lines 85-94 and 462); also return the color argument. -/
def stripColorLine (line : String) : String × Option String :=
  match parseColorRev line.data.reverse with
  | some (remRev, tok) => (String.mk (trimChars remRev.reverse), some (String.mk tok))
  | none => (pyStrip line, none)

/-- Lookup in an association list, Python dict read. -/
def dictGet {α : Type} : List (String × α) → String → Option α
  | [], _ => none
  | (k, v) :: rest, key => if k = key then some v else dictGet rest key

/-- Python dict write: overwrite in place, else append (dicts keep
insertion order). -/
def dictSet : List (String × String) → String → String → List (String × String)
  | [], key, v => [(key, v)]
  | (k, w) :: rest, key, v =>
    if k = key then (key, v) :: rest else (k, w) :: dictSet rest key v

/-- One console event. -/
inductive OutItem where
  /-- A plain print(...) call. -/
  | msg (s : String)
  /-- The show command's colored output: color code, content, then reset. -/
  | shown (color : String) (content : String)
  /-- The prompt written by input(prompt) during show input. -/
  | prompted (p : String)
  /-- The static help guide (its text does not matter for any claim). -/
  | helpText
deriving Repr, DecidableEq

/-- The mutable interpreter state of class ZCLILanguage.  The field vars
models self.variables (that identifier is a reserved command name here). -/
structure ZState where
  vars : List (String × String)
  program_lines : List String
  mode : String
  session_history : List String
  last_input_value : Option String
deriving Repr, DecidableEq

/-- Result of executing code: new state, console output, remaining input
stream, files written, and some code when sys.exit(code) was reached. -/
structure EffOut where
  state : ZState
  output : List OutItem
  inputs : List String
  writes : List (String × String)
  exited : Option Nat
deriving Repr, DecidableEq

/-- colorama Style.RESET_ALL. -/
def ANSI_RESET : String := "\x1b[0m"

/-- The fixed color palette (colorama foreground escape codes). -/
def ANSI_COLORS : List (String × String) :=
  [("red", "\x1b[31m"), ("orange", "\x1b[33m"), ("yellow", "\x1b[33m"),
   ("green", "\x1b[32m"), ("blue", "\x1b[34m"), ("indigo", "\x1b[34m"),
   ("violet", "\x1b[35m"), ("purple", "\x1b[35m"), ("cyan", "\x1b[36m"),
   ("white", "\x1b[37m"), ("black", "\x1b[30m")]

/-- A lower-case hex digit. -/
def isHexChar (c : Char) : Bool :=
  c.isDigit || (decide ('a' ≤ c) && decide (c ≤ 'f'))

/-- The source's hex pattern on the lowered token: a hash sign followed by
exactly three or six lower-case hex digits. -/
def isHexColor (s : String) : Bool :=
  match s.data with
  | '#' :: rest => rest.all isHexChar && (rest.length == 3 || rest.length == 6)
  | _ => false

/-- _get_ansi_color_code: palette hit gives the code; a hex token prints a
warning and gives no color; anything else silently gives no color. -/
def get_ansi_color_code (colorNameOrHex : String) : String × List OutItem :=
  let low := pyLower colorNameOrHex
  match dictGet ANSI_COLORS low with
  | some code => (code, [])
  | none =>
    if isHexColor low then
      ("", [OutItem.msg ("Warning: Hex color '" ++ colorNameOrHex ++
        "' is not fully supported in this basic terminal environment. Displaying with default color.")])
    else ("", [])

/-- Source lines 134-137: remove the outer parentheses of a part and, if
the remainder is again wrapped in parentheses, the inner ones too. -/
def parenName (part : String) : String :=
  let n0 := pySlice1 part
  if myStartsWith n0 "(" && myEndsWith n0 ")" then pySlice1 n0 else n0

/-- The define branch's concatenation loop (source lines 117-148): strip-
split at colons was already applied by chainParts; empty parts are
skipped; a quoted part yields its contents; ((input)), case-insensitively,
yields the last-input slot or fails; a part in one or two layers of
parentheses is a variable lookup; anything else fails.  An error value is
the diagnostic printed before the early return. -/
def evalChainDefine (vars : List (String × String)) (slot : Option String) :
    List String → Except String (List String)
  | [] => Except.ok []
  | part :: rest =>
    if part = "" then evalChainDefine vars slot rest
    else if myStartsWith part "\"" && myEndsWith part "\"" then
      match evalChainDefine vars slot rest with
      | Except.error e => Except.error e
      | Except.ok l => Except.ok (pySlice1 part :: l)
    else if pyLower part = "((input))" then
      match slot with
      | some v =>
        match evalChainDefine vars slot rest with
        | Except.error e => Except.error e
        | Except.ok l => Except.ok (v :: l)
      | none =>
        Except.error "Error: No input has been provided yet via 'show input' for 'define ((input))'."
    else if myStartsWith part "(" && myEndsWith part ")" then
      match dictGet vars (parenName part) with
      | some v =>
        match evalChainDefine vars slot rest with
        | Except.error e => Except.error e
        | Except.ok l => Except.ok (v :: l)
      | none =>
        Except.error ("Error: Variable '" ++ parenName part ++ "' not defined in define concatenation.")
    else
      Except.error ("Error: Invalid element '" ++ part ++
        "' in define value concatenation. Must be a quoted string, ((input)), or (variable).")

/-- The show branch's concatenation loop (source lines 192-220): like the
define loop but with no ((input)) case (a later ((input)) segment falls
into the parenthesis case) and with its own messages. -/
def evalChainShow (vars : List (String × String)) :
    List String → Except String (List String)
  | [] => Except.ok []
  | part :: rest =>
    if part = "" then evalChainShow vars rest
    else if myStartsWith part "\"" && myEndsWith part "\"" then
      match evalChainShow vars rest with
      | Except.error e => Except.error e
      | Except.ok l => Except.ok (pySlice1 part :: l)
    else if myStartsWith part "(" && myEndsWith part ")" then
      match dictGet vars (parenName part) with
      | some v =>
        match evalChainShow vars rest with
        | Except.error e => Except.error e
        | Except.ok l => Except.ok (v :: l)
      | none =>
        Except.error ("Error: Variable '" ++ parenName part ++ "' not defined in concatenation.")
    else
      Except.error ("Error: Invalid element '" ++ part ++
        "' in show concatenation. Must be a quoted string or (variable).")

/-- The define branch with at least three parts (source lines 113-151).
The caller passes full_value_argument, the slice of the processed line
after the command and the variable name, already stripped (line 114). -/
def define_branch (st : ZState) (inputs : List String) (colorOut : List OutItem)
    (rt : Bool) (varName fullValueArgument : String) : EffOut :=
  match evalChainDefine st.vars st.last_input_value (chainParts fullValueArgument) with
  | Except.error e => ⟨st, colorOut ++ [OutItem.msg e], inputs, [], none⟩
  | Except.ok l =>
    let value := strJoin l
    ⟨{ st with vars := dictSet st.vars varName value },
     colorOut ++ (if rt then [] else
       [OutItem.msg ("Defined variable '" ++ varName ++ "' with value '" ++ value ++ "'")]),
     inputs, [], none⟩

/-- Source line 225: after the show sub-branches set content_to_print,
printing happens unless the content is empty (Python truthiness) and the
first argument token is the word input. -/
def show_print_step (arg1 colorCode content : String) : List OutItem :=
  if (content != "") || (pyLower arg1 != "input") then
    [OutItem.shown colorCode content]
  else []

/-- show input (source lines 165-177): write the prompt, read one line
into the last-input slot, print nothing.  An empty input stream is
Python's EOFError from input(), caught by the handler at line 278: it
prints the runtime-error diagnostic and, during replay, halts with
sys.exit(1). -/
def show_input_read (st : ZState) (inputs : List String) (colorOut : List OutItem)
    (rt : Bool) (arg1 colorCode prompt : String) : EffOut :=
  match inputs with
  | v :: restIn =>
    ⟨{ st with last_input_value := some v },
     colorOut ++ [OutItem.prompted prompt] ++ show_print_step arg1 colorCode "",
     restIn, [], none⟩
  | [] =>
    if rt then
      ⟨st, colorOut ++ [OutItem.prompted prompt,
        OutItem.msg "Runtime Error during command 'show': EOF when reading a line",
        OutItem.msg "Program execution halted due to the above error."], [], [], some 1⟩
    else
      ⟨st, colorOut ++ [OutItem.prompted prompt,
        OutItem.msg "Runtime Error during command 'show': EOF when reading a line"], [], [], none⟩

/-- The show concatenation path (source lines 185-226). -/
def show_chain (st : ZState) (inputs : List String) (colorCode : String)
    (colorOut : List OutItem) (arg1 fullShowArgument : String) : EffOut :=
  match evalChainShow st.vars (chainParts fullShowArgument) with
  | Except.error e => ⟨st, colorOut ++ [OutItem.msg e], inputs, [], none⟩
  | Except.ok l =>
    ⟨st, colorOut ++ show_print_step arg1 colorCode (strJoin l), inputs, [], none⟩

/-- The show branch with at least two parts (source lines 160-226).  The
first argument token selects show input, show ((input)), or the
concatenation path over the slice of the processed line after show. -/
def show_branch (st : ZState) (inputs : List String) (colorCode : String)
    (colorOut : List OutItem) (rt : Bool) (processedLine arg1 : String)
    (restParts : List String) : EffOut :=
  if pyLower arg1 = "input" then
    match restParts with
    | [] => show_input_read st inputs colorOut rt arg1 colorCode ""
    | promptPart :: _ =>
      if myStartsWith promptPart "\"" && myEndsWith promptPart "\"" then
        show_input_read st inputs colorOut rt arg1 colorCode (pySlice1 promptPart)
      else
        ⟨st, colorOut ++
          [OutItem.msg "Error: Invalid show input syntax. Prompt must be a quoted string."],
         inputs, [], none⟩
  else if pyLower arg1 = "((input))" then
    match st.last_input_value with
    | some v => ⟨st, colorOut ++ show_print_step arg1 colorCode v, inputs, [], none⟩
    | none =>
      ⟨st, colorOut ++
        [OutItem.msg "Error: No input has been provided yet via 'show input' for 'show ((input))'."],
       inputs, [], none⟩
  else
    show_chain st inputs colorCode colorOut arg1 (pyStrip (strDrop processedLine 4))

/-- _save_program (source lines 374-395): add the .zcli suffix unless the
lowered name already ends with it; the written text is the program buffer
in compiler mode, else the session history, one line plus newline each.
Returns ((path, written text), the success message); the model's
filesystem writes always succeed. -/
def save_program (st : ZState) (filename : String) : (String × String) × OutItem :=
  let fname := if myEndsWith (pyLower filename) ".zcli" then filename else filename ++ ".zcli"
  if st.mode = "compiler" then
    ((fname, strJoin (st.program_lines.map (fun l => l ++ "\n"))),
     OutItem.msg ("Program (compiler buffer) saved to '" ++ fname ++ "'."))
  else
    ((fname, strJoin (st.session_history.map (fun l => l ++ "\n"))),
     OutItem.msg ("Session history saved to '" ++ fname ++ "'."))

/-- The model filesystem: path to the file's raw lines. -/
def fsLookup : List (String × List String) → String → Option (List String)
  | [], _ => none
  | (k, v) :: rest, f => if k = f then some v else fsLookup rest f

/-- _open_program (source lines 397-417), parameterised by the replay
runner: read the stripped non-empty lines; in compiler mode append them to
the program buffer, else execute them immediately via the runner. -/
def open_program_core (runner : ZState → List String → List String → EffOut)
    (fs : List (String × List String)) (st : ZState) (inputs : List String)
    (filename : String) : EffOut :=
  match fsLookup fs filename with
  | none => ⟨st, [OutItem.msg ("Error: File '" ++ filename ++ "' not found.")], inputs, [], none⟩
  | some raw =>
    let lns := (raw.map pyStrip).filter (fun l => l != "")
    if st.mode = "compiler" then
      ⟨{ st with program_lines := st.program_lines ++ lns },
       [OutItem.msg ("Program lines from '" ++ filename ++ "' loaded into compiler buffer."),
        OutItem.msg "Type 'execute' to run them."],
       inputs, [], none⟩
    else
      let r := runner st inputs lns
      ⟨r.state,
       OutItem.msg ("Executing program from '" ++ filename ++ "' in interpreter mode...") :: r.output,
       r.inputs, r.writes, r.exited⟩

/-- Source line 79: ignore lines that are empty after stripping or whose
stripped form starts with the comment character. -/
def pyBlankOrComment (line : String) : Bool :=
  (pyStrip line == "") || myStartsWith (pyStrip line) "$"

/-- _parse_and_execute_line (source lines 64-283), parameterised by the
replay runner used by the execute and open commands.  During replay
(rt = true) those branches never invoke the runner, because meta-commands
are suppressed there, so replay itself can use an inert runner. -/
def parseExecCore (runner : ZState → List String → List String → EffOut)
    (fs : List (String × List String)) (st : ZState) (inputs : List String)
    (line : String) (rt : Bool) : EffOut :=
  let st1 := if rt then st else { st with session_history := st.session_history ++ [line] }
  if pyBlankOrComment line then
    ⟨st1, [], inputs, [], none⟩
  else
    let stripped := stripColorLine line
    let processedLine := stripped.1
    let colorInfo :=
      match stripped.2 with
      | some t => get_ansi_color_code t
      | none => ("", [])
    let colorCode := colorInfo.1
    let colorOut := colorInfo.2
    match pySplitMax2 processedLine with
    | [] => ⟨st1, colorOut, inputs, [], none⟩
    | cmdTok :: parts1 =>
      let command := pyLower cmdTok
      if command = "define" then
        match parts1 with
        | varName :: _ :: _ =>
          define_branch st1 inputs colorOut rt varName
            (pyStrip (strDrop processedLine (6 + varName.length + 1)))
        | [_] =>
          ⟨st1, colorOut ++ [OutItem.msg "Error: Invalid define syntax. Missing value. Use: define variablename \"value\" or define variablename ((input)) or define <var> <part1> : <part2>"],
           inputs, [], none⟩
        | [] =>
          ⟨st1, colorOut ++ [OutItem.msg "Error: Invalid define syntax. Use: define variablename \"value\" or define variablename ((input)) or define <var> <part1> : <part2>"],
           inputs, [], none⟩
      else if command = "show" then
        match parts1 with
        | arg1 :: restParts =>
          show_branch st1 inputs colorCode colorOut rt processedLine arg1 restParts
        | [] =>
          ⟨st1, colorOut ++ [OutItem.msg "Error: Invalid show syntax. Use: show \"literal string\", show (variablename), show input [\"prompt\"], show ((input)), or use concatenation with ':'"],
           inputs, [], none⟩
      else if command = "help" then
        if rt then ⟨st1, colorOut, inputs, [], none⟩
        else ⟨st1, colorOut ++ [OutItem.helpText], inputs, [], none⟩
      else if command = "save" then
        if rt then ⟨st1, colorOut, inputs, [], none⟩
        else
          match parts1 with
          | filename :: _ =>
            let sr := save_program st1 filename
            ⟨st1, colorOut ++ [sr.2], inputs, [sr.1], none⟩
          | [] =>
            ⟨st1, colorOut ++ [OutItem.msg "Error: Invalid save syntax. Use: save filename"],
             inputs, [], none⟩
      else if command = "open" then
        if rt then ⟨st1, colorOut, inputs, [], none⟩
        else
          match parts1 with
          | filename :: _ =>
            let r := open_program_core runner fs st1 inputs filename
            ⟨r.state, colorOut ++ r.output, r.inputs, r.writes, r.exited⟩
          | [] =>
            ⟨st1, colorOut ++ [OutItem.msg "Error: Invalid open syntax. Use: open filename.zcli"],
             inputs, [], none⟩
      else if command = "execute" then
        if rt then
          ⟨st1, colorOut ++ [OutItem.msg "Warning: 'execute' command ignored during program execution."],
           inputs, [], none⟩
        else if st1.mode = "compiler" then
          if st1.program_lines = [] then
            ⟨st1, colorOut ++ [OutItem.msg "No program lines to execute. Add commands in compiler mode first."],
             inputs, [], none⟩
          else
            let r := runner { st1 with mode := "interpreter" } inputs st1.program_lines
            match r.exited with
            | some c =>
              ⟨r.state, colorOut ++ [OutItem.msg "\n--- Executing ZCLI Program ---"] ++ r.output,
               r.inputs, r.writes, some c⟩
            | none =>
              ⟨{ r.state with mode := st1.mode },
               colorOut ++ [OutItem.msg "\n--- Executing ZCLI Program ---"] ++ r.output ++
                 [OutItem.msg "--- Program Execution Complete ---\n"],
               r.inputs, r.writes, none⟩
        else
          ⟨st1, colorOut ++ [OutItem.msg "Error: 'execute' command is only available in compiler mode."],
           inputs, [], none⟩
      else if command = "int" then
        if rt then
          ⟨st1, colorOut ++ [OutItem.msg "Warning: 'int' command ignored during program execution."],
           inputs, [], none⟩
        else
          ⟨{ st1 with mode := "interpreter" },
           colorOut ++ [OutItem.msg "Switched to interpreter mode. Commands will be executed immediately."],
           inputs, [], none⟩
      else if command = "comp" then
        if rt then
          ⟨st1, colorOut ++ [OutItem.msg "Warning: 'comp' command ignored during program execution."],
           inputs, [], none⟩
        else
          ⟨{ st1 with mode := "compiler" },
           colorOut ++ [OutItem.msg "Switched to compiler mode. Commands will be stored for 'execute'."],
           inputs, [], none⟩
      else
        if rt then ⟨st1, colorOut, inputs, [], none⟩
        else
          ⟨st1, colorOut ++ [OutItem.msg ("Error: Unknown command '" ++ command ++ "'. Type 'help' for commands.")],
           inputs, [], none⟩

/-- The inert runner: during replay the execute and open branches are
suppressed before they would recurse, so this function is never reached
from a replayed line. -/
def noReplay : ZState → List String → List String → EffOut :=
  fun st inputs _ => ⟨st, [], inputs, [], none⟩

/-- _run_program_lines (source lines 285-299): run each line with
is_runtime_execution = True; a SystemExit stops the loop and propagates. -/
def run_program_lines (fs : List (String × List String)) :
    ZState → List String → List String → EffOut
  | st, inputs, [] => ⟨st, [], inputs, [], none⟩
  | st, inputs, l :: rest =>
    let r := parseExecCore noReplay fs st inputs l true
    match r.exited with
    | some c => ⟨r.state, r.output, r.inputs, r.writes, some c⟩
    | none =>
      let r2 := run_program_lines fs r.state r.inputs rest
      ⟨r2.state, r.output ++ r2.output, r2.inputs, r.writes ++ r2.writes, r2.exited⟩

/-- _parse_and_execute_line with the real replay runner. -/
def parse_and_execute_line (fs : List (String × List String)) (st : ZState)
    (inputs : List String) (line : String) (rt : Bool) : EffOut :=
  parseExecCore (run_program_lines fs) fs st inputs line rt

/-- _open_program with the real replay runner. -/
def open_program (fs : List (String × List String)) (st : ZState)
    (inputs : List String) (filename : String) : EffOut :=
  open_program_core (run_program_lines fs) fs st inputs filename

/-- run_repl with a file argument (source lines 425-441): missing file is
a sys.exit(1); otherwise force interpreter mode, run the file, swallow a
SystemExit raised by the replay, restore the mode in the finally block and
print the completion message, so the process itself returns normally. -/
def run_repl_file (fs : List (String × List String)) (st : ZState)
    (inputs : List String) (path : String) : EffOut :=
  match fsLookup fs path with
  | none => ⟨st, [OutItem.msg ("Error: File '" ++ path ++ "' not found.")], inputs, [], some 1⟩
  | some _ =>
    let r := open_program fs { st with mode := "interpreter" } inputs path
    ⟨{ r.state with mode := st.mode },
     OutItem.msg ("Executing ZCLI file: " ++ path) :: r.output ++
       [OutItem.msg ("Finished executing " ++ path ++ ".")],
     r.inputs, r.writes, none⟩

/-- The control commands executed immediately even in compiler mode
(source line 458). -/
def control_commands : List String :=
  ["execute", "help", "save", "open", "int", "comp", "exit"]

/-- One iteration of the interactive loop (source lines 444-473): an exact
exit line stops the loop; in compiler mode a line whose color-stripped,
stripped, lowered text starts with a control command executes immediately,
any other line is appended verbatim to the program buffer; in interpreter
mode every line executes immediately.  The Bool is the loop-break flag. -/
def replStep (fs : List (String × List String)) (st : ZState)
    (inputs : List String) (user_input : String) : EffOut × Bool :=
  if pyLower user_input = "exit" then
    (⟨st, [OutItem.msg "Exiting ZCLI. Goodbye!"], inputs, [], none⟩, true)
  else if st.mode = "compiler" then
    (if control_commands.any (fun c => myStartsWith (pyLower (stripColorLine user_input).1) c) then
       (parse_and_execute_line fs st inputs user_input false, false)
     else
       (⟨{ st with program_lines := st.program_lines ++ [user_input] }, [], inputs, [], none⟩, false))
  else
    (parse_and_execute_line fs st inputs user_input false, false)

/-!
Specification-side definitions, written from the spec's wording of the
colon-chain evaluation (section 4.1 as amended), to be compared with the
evaluators embedded from the source.
-/

/-- Spec wording: split the raw argument on colon tokens that may carry
surrounding whitespace and discard empty resulting segments. -/
def spec_split_chain (s : String) : List String :=
  ((splitColonCore s.data).map (fun l => String.mk (trimChars l))).filter (fun p => p != "")

/-- Spec wording for one define segment: a double-quoted segment yields
its contents with the quotes stripped; the segment ((input)), compared
case-insensitively, yields the last-input slot (failing when the slot is
absent); a segment in one or two layers of parentheses yields the stored
value of the inner name (failing when unset); anything else fails. -/
def spec_resolve_define_seg (vars : List (String × String)) (slot : Option String)
    (seg : String) : Option String :=
  if myStartsWith seg "\"" && myEndsWith seg "\"" then some (pySlice1 seg)
  else if pyLower seg = "((input))" then slot
  else if myStartsWith seg "(" && myEndsWith seg ")" then
    dictGet vars (parenName seg)
  else none

/-- Spec wording for one show segment: as for define but with no
input-placeholder rule (a later ((input)) is an ordinary variable). -/
def spec_resolve_show_seg (vars : List (String × String)) (seg : String) : Option String :=
  if myStartsWith seg "\"" && myEndsWith seg "\"" then some (pySlice1 seg)
  else if myStartsWith seg "(" && myEndsWith seg ")" then
    dictGet vars (parenName seg)
  else none

/-- Spec wording: resolve the segments left to right, failing fast on the
first segment that fails to resolve. -/
def spec_chain_eval (resolve : String → Option String) : List String → Option (List String)
  | [] => some []
  | p :: rest =>
    match resolve p with
    | none => none
    | some v =>
      match spec_chain_eval resolve rest with
      | none => none
      | some l => some (v :: l)

/-- Forget the diagnostic text of a chain evaluation, keeping only
success with the resolved segments or failure. -/
def chainOutcome : Except String (List String) → Option (List String)
  | Except.ok l => some l
  | Except.error _ => none

/-!  Theorems for the claims. -/

/-- Helper: the common print step of show always prints when the first
argument token is not the word input. -/
theorem show_print_step_of_ne_input (arg code content : String)
    (h : (pyLower arg != "input") = true) :
    show_print_step arg code content = [OutItem.shown code content] := by
  unfold show_print_step
  rw [h, Bool.or_true]
  rfl

/-- C7 counterexample: the claim says a replayed save logs a warning; in
fact a replayed save (like open and help) is suppressed with no output at
all, while still writing no file. -/
theorem zcli_replay_save_silent_cex :
    (parse_and_execute_line [] ⟨[("a", "1")], ["show \"q\""], "compiler", ["h1"], some "z"⟩
      [] "save test" true).output = [] ∧
    (parse_and_execute_line [] ⟨[("a", "1")], ["show \"q\""], "compiler", ["h1"], some "z"⟩
      [] "save test" true).writes = [] :=
  ⟨rfl, rfl⟩

/-- C7 (amended): during replay every meta-command is suppressed with no
effect on the state, the input stream or the filesystem, and with no
nested replay; execute, int and comp print an ignore warning, while save,
open and help are suppressed silently. -/
theorem zcli_replay_meta_suppressed (fs : List (String × List String))
    (st : ZState) (inputs : List String) :
    parse_and_execute_line fs st inputs "save test" true = ⟨st, [], inputs, [], none⟩ ∧
    parse_and_execute_line fs st inputs "open prog.zcli" true = ⟨st, [], inputs, [], none⟩ ∧
    parse_and_execute_line fs st inputs "help" true = ⟨st, [], inputs, [], none⟩ ∧
    parse_and_execute_line fs st inputs "execute" true =
      ⟨st, [OutItem.msg "Warning: 'execute' command ignored during program execution."],
       inputs, [], none⟩ ∧
    parse_and_execute_line fs st inputs "int" true =
      ⟨st, [OutItem.msg "Warning: 'int' command ignored during program execution."],
       inputs, [], none⟩ ∧
    parse_and_execute_line fs st inputs "comp" true =
      ⟨st, [OutItem.msg "Warning: 'comp' command ignored during program execution."],
       inputs, [], none⟩ :=
  ⟨rfl, rfl, rfl, rfl, rfl, rfl⟩

/-- C8 counterexample: a comment line is not free of state changes: when
executed directly it is appended to the session history, and in compiler
mode the interactive loop appends it to the program buffer. -/
theorem zcli_comment_state_change_cex :
    (parse_and_execute_line [] ⟨[], [], "interpreter", [], none⟩ [] "$ hi" false).state.session_history
      = ["$ hi"] ∧
    (replStep [] ⟨[], [], "compiler", [], none⟩ [] "$ hi").1.state.program_lines = ["$ hi"] :=
  ⟨rfl, rfl⟩

/-- C8 (amended): a blank or comment line produces no output and leaves
the variable store, the input slot, the buffer and the mode unchanged; it
is a complete no-op during replay, but a directly executed one is appended
to the session history, and in compiler mode the interactive loop appends
it verbatim to the program buffer instead of executing it. -/
theorem zcli_comment_noop :
    (∀ (fs : List (String × List String)) (st : ZState) (inputs : List String) (line : String),
      pyBlankOrComment line = true →
      parse_and_execute_line fs st inputs line true = ⟨st, [], inputs, [], none⟩) ∧
    (∀ (fs : List (String × List String)) (st : ZState) (inputs : List String) (line : String),
      pyBlankOrComment line = true →
      parse_and_execute_line fs st inputs line false =
        ⟨⟨st.vars, st.program_lines, st.mode, st.session_history ++ [line], st.last_input_value⟩,
         [], inputs, [], none⟩) ∧
    (∀ (fs : List (String × List String)) (st : ZState) (inputs : List String),
      st.mode = "compiler" →
      replStep fs st inputs "$ comment" =
        (⟨⟨st.vars, st.program_lines ++ ["$ comment"], st.mode, st.session_history, st.last_input_value⟩,
          [], inputs, [], none⟩, false)) ∧
    (∀ (fs : List (String × List String)) (st : ZState) (inputs : List String),
      st.mode = "compiler" →
      replStep fs st inputs "   " =
        (⟨⟨st.vars, st.program_lines ++ ["   "], st.mode, st.session_history, st.last_input_value⟩,
          [], inputs, [], none⟩, false)) := by
  refine ⟨?_, ?_, ?_, ?_⟩
  · intro fs st inputs line h
    simp only [parse_and_execute_line, parseExecCore]
    rw [if_pos h]
    rfl
  · intro fs st inputs line h
    simp only [parse_and_execute_line, parseExecCore]
    rw [if_pos h]
    rfl
  · intro fs st inputs h
    have e : replStep fs st inputs "$ comment" =
        (if st.mode = "compiler" then
          (⟨⟨st.vars, st.program_lines ++ ["$ comment"], st.mode, st.session_history,
             st.last_input_value⟩, [], inputs, [], none⟩, false)
         else (parse_and_execute_line fs st inputs "$ comment" false, false)) := rfl
    rw [e, if_pos h]
  · intro fs st inputs h
    have e : replStep fs st inputs "   " =
        (if st.mode = "compiler" then
          (⟨⟨st.vars, st.program_lines ++ ["   "], st.mode, st.session_history,
             st.last_input_value⟩, [], inputs, [], none⟩, false)
         else (parse_and_execute_line fs st inputs "   " false, false)) := rfl
    rw [e, if_pos h]

/-- C8 witness: the amended theorem applied to a concrete comment line. -/
theorem zcli_comment_noop_witness :
    parse_and_execute_line [] ⟨[], [], "compiler", [], none⟩ [] "$ x" true =
      ⟨⟨[], [], "compiler", [], none⟩, [], [], [], none⟩ :=
  zcli_comment_noop.1 [] ⟨[], [], "compiler", [], none⟩ [] "$ x" rfl

/-- C9: save appends the .zcli suffix exactly when the (lowered) name does
not already end with it, and persists the program buffer in compiler mode,
else the session history, writing one stored line (plus newline) per
output line.  The dispatcher-level conjuncts replay the spec's two
examples over any state; the saved history includes the save line itself,
which the direct entry just appended. -/
theorem zcli_save_behavior :
    (∀ (st : ZState) (fname : String),
      (save_program st fname).1.1 =
        (if myEndsWith (pyLower fname) ".zcli" then fname else fname ++ ".zcli")) ∧
    (∀ (st : ZState) (fname : String),
      (save_program st fname).1.2 =
        strJoin ((if st.mode = "compiler" then st.program_lines else st.session_history).map
          (fun l => l ++ "\n"))) ∧
    (∀ (l : String) (ls : List String),
      strJoin ((l :: ls).map (fun x => x ++ "\n")) =
        (l ++ "\n") ++ strJoin (ls.map (fun x => x ++ "\n"))) ∧
    (∀ (st : ZState) (inputs : List String),
      (parse_and_execute_line [] st inputs "save out" false).writes =
        [("out.zcli",
          strJoin ((if st.mode = "compiler" then st.program_lines
            else st.session_history ++ ["save out"]).map (fun l => l ++ "\n")))]) ∧
    (∀ (st : ZState) (inputs : List String),
      (parse_and_execute_line [] st inputs "save out.zcli" false).writes =
        [("out.zcli",
          strJoin ((if st.mode = "compiler" then st.program_lines
            else st.session_history ++ ["save out.zcli"]).map (fun l => l ++ "\n")))]) := by
  refine ⟨?_, ?_, ?_, ?_, ?_⟩
  · intro st fname
    obtain ⟨v, p, m, s, li⟩ := st
    by_cases h : m = "compiler"
    · subst h; rfl
    · simp only [save_program]
      rw [if_neg h]
  · intro st fname
    obtain ⟨v, p, m, s, li⟩ := st
    by_cases h : m = "compiler"
    · subst h; rfl
    · simp only [save_program]
      rw [if_neg h, if_neg h]
  · intro l ls
    cases ls with
    | nil => exact (String.append_empty (l ++ "\n")).symm
    | cons a as => rfl
  · intro st inputs
    obtain ⟨v, p, m, s, li⟩ := st
    by_cases h : m = "compiler"
    · subst h; rfl
    · have e : (parse_and_execute_line [] ⟨v, p, m, s, li⟩ inputs "save out" false).writes =
          [(save_program ⟨v, p, m, s ++ ["save out"], li⟩ "out").1] := rfl
      rw [e]
      simp only [save_program]
      rw [if_neg h, if_neg h]
      rfl
  · intro st inputs
    obtain ⟨v, p, m, s, li⟩ := st
    by_cases h : m = "compiler"
    · subst h; rfl
    · have e : (parse_and_execute_line [] ⟨v, p, m, s, li⟩ inputs "save out.zcli" false).writes =
          [(save_program ⟨v, p, m, s ++ ["save out.zcli"], li⟩ "out.zcli").1] := rfl
      rw [e]
      simp only [save_program]
      rw [if_neg h, if_neg h]
      rfl

/-- C4: with no captured input, define name ((input)) and show ((input))
fail with the unbound-input diagnostic and change nothing (no empty-string
substitution); show input captures the raw line into the slot without
printing it; show ((input)) then prints exactly the captured line and the
slot stays set. -/
theorem zcli_input_slot :
    (∀ (st : ZState) (inputs : List String), st.last_input_value = none →
      parse_and_execute_line [] st inputs "define nm ((input))" false =
        ⟨⟨st.vars, st.program_lines, st.mode, st.session_history ++ ["define nm ((input))"], none⟩,
         [OutItem.msg "Error: No input has been provided yet via 'show input' for 'define ((input))'."],
         inputs, [], none⟩) ∧
    (∀ (st : ZState) (inputs : List String), st.last_input_value = none →
      parse_and_execute_line [] st inputs "show ((input))" false =
        ⟨⟨st.vars, st.program_lines, st.mode, st.session_history ++ ["show ((input))"], none⟩,
         [OutItem.msg "Error: No input has been provided yet via 'show input' for 'show ((input))'."],
         inputs, [], none⟩) ∧
    (∀ (st : ZState) (s : String) (inputs : List String),
      parse_and_execute_line [] st (s :: inputs) "show input" false =
        ⟨⟨st.vars, st.program_lines, st.mode, st.session_history ++ ["show input"], some s⟩,
         [OutItem.prompted ""], inputs, [], none⟩) ∧
    (∀ (st : ZState) (s : String) (inputs : List String), st.last_input_value = some s →
      parse_and_execute_line [] st inputs "show ((input))" false =
        ⟨⟨st.vars, st.program_lines, st.mode, st.session_history ++ ["show ((input))"], some s⟩,
         [OutItem.shown "" s], inputs, [], none⟩) := by
  refine ⟨?_, ?_, ?_, ?_⟩
  · intro st inputs h
    have e1 : evalChainDefine st.vars st.last_input_value ["((input))"] =
        (match st.last_input_value with
         | some v => Except.ok [v]
         | none => Except.error
             "Error: No input has been provided yet via 'show input' for 'define ((input))'.") := rfl
    have e2 : parse_and_execute_line [] st inputs "define nm ((input))" false =
        (match evalChainDefine st.vars st.last_input_value ["((input))"] with
         | Except.error e =>
           ⟨⟨st.vars, st.program_lines, st.mode,
             st.session_history ++ ["define nm ((input))"], st.last_input_value⟩,
            [OutItem.msg e], inputs, [], none⟩
         | Except.ok l =>
           ⟨⟨dictSet st.vars "nm" (strJoin l), st.program_lines, st.mode,
             st.session_history ++ ["define nm ((input))"], st.last_input_value⟩,
            [OutItem.msg ("Defined variable 'nm' with value '" ++ strJoin l ++ "'")],
            inputs, [], none⟩) := rfl
    rw [e2, e1, h]
  · intro st inputs h
    have e : parse_and_execute_line [] st inputs "show ((input))" false =
        (match st.last_input_value with
         | some v =>
           ⟨⟨st.vars, st.program_lines, st.mode,
             st.session_history ++ ["show ((input))"], st.last_input_value⟩,
            show_print_step "((input))" "" v, inputs, [], none⟩
         | none =>
           ⟨⟨st.vars, st.program_lines, st.mode,
             st.session_history ++ ["show ((input))"], st.last_input_value⟩,
            [OutItem.msg "Error: No input has been provided yet via 'show input' for 'show ((input))'."],
            inputs, [], none⟩) := rfl
    rw [e, h]
  · intro st s inputs
    rfl
  · intro st s inputs h
    have e : parse_and_execute_line [] st inputs "show ((input))" false =
        (match st.last_input_value with
         | some v =>
           ⟨⟨st.vars, st.program_lines, st.mode,
             st.session_history ++ ["show ((input))"], st.last_input_value⟩,
            show_print_step "((input))" "" v, inputs, [], none⟩
         | none =>
           ⟨⟨st.vars, st.program_lines, st.mode,
             st.session_history ++ ["show ((input))"], st.last_input_value⟩,
            [OutItem.msg "Error: No input has been provided yet via 'show input' for 'show ((input))'."],
            inputs, [], none⟩) := rfl
    rw [e, h]
    show (⟨⟨st.vars, st.program_lines, st.mode, st.session_history ++ ["show ((input))"], some s⟩,
           show_print_step "((input))" "" s, inputs, [], none⟩ : EffOut) = _
    rw [show_print_step_of_ne_input "((input))" "" s rfl]

/-- C4 witness: the unbound-input case and the capture-then-read case at a
concrete state. -/
theorem zcli_input_slot_witness :
    parse_and_execute_line [] ⟨[], [], "interpreter", [], none⟩ [] "show ((input))" false =
      ⟨⟨[], [], "interpreter", ["show ((input))"], none⟩,
       [OutItem.msg "Error: No input has been provided yet via 'show input' for 'show ((input))'."],
       [], [], none⟩ :=
  zcli_input_slot.2.1 ⟨[], [], "interpreter", [], none⟩ [] rfl

/-- C10: the token ((input)) is the input placeholder only as the first
argument token of show (where it prints the slot and any trailing chain
text is ignored); as a later chain segment both parenthesis layers are
stripped and it is an ordinary lookup of the variable named input,
failing with the undefined-variable diagnostic whenever that variable is
unset, whatever the last-input slot holds. -/
theorem zcli_show_input_token_position :
    (∀ (st : ZState) (inputs : List String), dictGet st.vars "input" = none →
      parse_and_execute_line [] st inputs "show \"x\" : ((input))" false =
        ⟨⟨st.vars, st.program_lines, st.mode,
          st.session_history ++ ["show \"x\" : ((input))"], st.last_input_value⟩,
         [OutItem.msg "Error: Variable 'input' not defined in concatenation."],
         inputs, [], none⟩) ∧
    (∀ (st : ZState) (inputs : List String) (v : String), dictGet st.vars "input" = some v →
      parse_and_execute_line [] st inputs "show \"x\" : ((input))" false =
        ⟨⟨st.vars, st.program_lines, st.mode,
          st.session_history ++ ["show \"x\" : ((input))"], st.last_input_value⟩,
         [OutItem.shown "" ("x" ++ v)], inputs, [], none⟩) ∧
    (∀ (st : ZState) (inputs : List String) (s : String), st.last_input_value = some s →
      parse_and_execute_line [] st inputs "show ((input)) : \"x\"" false =
        ⟨⟨st.vars, st.program_lines, st.mode,
          st.session_history ++ ["show ((input)) : \"x\""], some s⟩,
         [OutItem.shown "" s], inputs, [], none⟩) := by
  have e1 : ∀ (st : ZState), evalChainShow st.vars ["\"x\"", "((input))"] =
      (match (match dictGet st.vars "input" with
              | some v => Except.ok [v]
              | none => Except.error "Error: Variable 'input' not defined in concatenation.") with
       | Except.error e => Except.error e
       | Except.ok l => Except.ok ("x" :: l)) := fun _ => rfl
  have e2 : ∀ (st : ZState) (inputs : List String),
      parse_and_execute_line [] st inputs "show \"x\" : ((input))" false =
        (match evalChainShow st.vars ["\"x\"", "((input))"] with
         | Except.error e =>
           ⟨⟨st.vars, st.program_lines, st.mode,
             st.session_history ++ ["show \"x\" : ((input))"], st.last_input_value⟩,
            [OutItem.msg e], inputs, [], none⟩
         | Except.ok l =>
           ⟨⟨st.vars, st.program_lines, st.mode,
             st.session_history ++ ["show \"x\" : ((input))"], st.last_input_value⟩,
            show_print_step "\"x\"" "" (strJoin l), inputs, [], none⟩) :=
    fun _ _ => rfl
  refine ⟨?_, ?_, ?_⟩
  · intro st inputs h
    rw [e2, e1, h]
  · intro st inputs v h
    rw [e2, e1, h]
    show (⟨⟨st.vars, st.program_lines, st.mode,
            st.session_history ++ ["show \"x\" : ((input))"], st.last_input_value⟩,
           show_print_step "\"x\"" "" ("x" ++ v), inputs, [], none⟩ : EffOut) = _
    rw [show_print_step_of_ne_input "\"x\"" "" ("x" ++ v) rfl]
  · intro st inputs s h
    have e : parse_and_execute_line [] st inputs "show ((input)) : \"x\"" false =
        (match st.last_input_value with
         | some v =>
           ⟨⟨st.vars, st.program_lines, st.mode,
             st.session_history ++ ["show ((input)) : \"x\""], st.last_input_value⟩,
            show_print_step "((input))" "" v, inputs, [], none⟩
         | none =>
           ⟨⟨st.vars, st.program_lines, st.mode,
             st.session_history ++ ["show ((input)) : \"x\""], st.last_input_value⟩,
            [OutItem.msg "Error: No input has been provided yet via 'show input' for 'show ((input))'."],
            inputs, [], none⟩) := rfl
    rw [e, h]
    show (⟨⟨st.vars, st.program_lines, st.mode,
            st.session_history ++ ["show ((input)) : \"x\""], some s⟩,
           show_print_step "((input))" "" s, inputs, [], none⟩ : EffOut) = _
    rw [show_print_step_of_ne_input "((input))" "" s rfl]

/-- C10 witness: with the slot holding S and no variable named input, the
later-segment form fails while the first-token form prints S. -/
theorem zcli_show_input_token_position_witness :
    parse_and_execute_line [] ⟨[], [], "interpreter", [], some "S"⟩ [] "show \"x\" : ((input))" false =
      ⟨⟨[], [], "interpreter", ["show \"x\" : ((input))"], some "S"⟩,
       [OutItem.msg "Error: Variable 'input' not defined in concatenation."], [], [], none⟩ :=
  zcli_show_input_token_position.1 ⟨[], [], "interpreter", [], some "S"⟩ [] rfl

/-- C5: in compiler (Buffering) mode, execute replays exactly the lines of
the program buffer, in order, through the runtime path with the mode set
to interpreter for the replay, and on normal completion restores the mode
that was current (compiler); with an empty buffer it only reports that
there is nothing to run.  In interpreter (Immediate) mode execute prints
an error and changes no interpreter state beyond the usual history log of
the typed line. -/
theorem zcli_execute_replay :
    (∀ (fs : List (String × List String)) (st : ZState) (inputs : List String),
      st.mode = "compiler" →
      parse_and_execute_line fs st inputs "execute" false =
        (if st.program_lines = [] then
          ⟨⟨st.vars, st.program_lines, st.mode, st.session_history ++ ["execute"],
            st.last_input_value⟩,
           [OutItem.msg "No program lines to execute. Add commands in compiler mode first."],
           inputs, [], none⟩
         else
          let r := run_program_lines fs
            ⟨st.vars, st.program_lines, "interpreter", st.session_history ++ ["execute"],
             st.last_input_value⟩ inputs st.program_lines
          match r.exited with
          | some c =>
            ⟨r.state, OutItem.msg "\n--- Executing ZCLI Program ---" :: r.output,
             r.inputs, r.writes, some c⟩
          | none =>
            ⟨⟨r.state.vars, r.state.program_lines, st.mode, r.state.session_history,
              r.state.last_input_value⟩,
             OutItem.msg "\n--- Executing ZCLI Program ---" ::
               (r.output ++ [OutItem.msg "--- Program Execution Complete ---\n"]),
             r.inputs, r.writes, none⟩)) ∧
    (∀ (fs : List (String × List String)) (st : ZState) (inputs : List String),
      st.mode = "interpreter" →
      parse_and_execute_line fs st inputs "execute" false =
        ⟨⟨st.vars, st.program_lines, st.mode, st.session_history ++ ["execute"],
          st.last_input_value⟩,
         [OutItem.msg "Error: 'execute' command is only available in compiler mode."],
         inputs, [], none⟩) ∧
    (∀ (fs : List (String × List String)) (st : ZState) (inputs : List String)
       (l : String) (rest : List String),
      run_program_lines fs st inputs (l :: rest) =
        (let r := parseExecCore noReplay fs st inputs l true
         match r.exited with
         | some c => ⟨r.state, r.output, r.inputs, r.writes, some c⟩
         | none =>
           let r2 := run_program_lines fs r.state r.inputs rest
           ⟨r2.state, r.output ++ r2.output, r2.inputs, r.writes ++ r2.writes, r2.exited⟩)) := by
  refine ⟨?_, ?_, ?_⟩
  · intro fs st inputs h
    have e : parse_and_execute_line fs st inputs "execute" false =
        (if st.mode = "compiler" then
          (if st.program_lines = [] then
            ⟨⟨st.vars, st.program_lines, st.mode, st.session_history ++ ["execute"],
              st.last_input_value⟩,
             [OutItem.msg "No program lines to execute. Add commands in compiler mode first."],
             inputs, [], none⟩
           else
            let r := run_program_lines fs
              ⟨st.vars, st.program_lines, "interpreter", st.session_history ++ ["execute"],
               st.last_input_value⟩ inputs st.program_lines
            match r.exited with
            | some c =>
              ⟨r.state, OutItem.msg "\n--- Executing ZCLI Program ---" :: r.output,
               r.inputs, r.writes, some c⟩
            | none =>
              ⟨⟨r.state.vars, r.state.program_lines, st.mode, r.state.session_history,
                r.state.last_input_value⟩,
               OutItem.msg "\n--- Executing ZCLI Program ---" ::
                 (r.output ++ [OutItem.msg "--- Program Execution Complete ---\n"]),
               r.inputs, r.writes, none⟩)
         else
          ⟨⟨st.vars, st.program_lines, st.mode, st.session_history ++ ["execute"],
            st.last_input_value⟩,
           [OutItem.msg "Error: 'execute' command is only available in compiler mode."],
           inputs, [], none⟩) := rfl
    rw [e, if_pos h]
  · intro fs st inputs h
    have e : parse_and_execute_line fs st inputs "execute" false =
        (if st.mode = "compiler" then
          (if st.program_lines = [] then
            ⟨⟨st.vars, st.program_lines, st.mode, st.session_history ++ ["execute"],
              st.last_input_value⟩,
             [OutItem.msg "No program lines to execute. Add commands in compiler mode first."],
             inputs, [], none⟩
           else
            let r := run_program_lines fs
              ⟨st.vars, st.program_lines, "interpreter", st.session_history ++ ["execute"],
               st.last_input_value⟩ inputs st.program_lines
            match r.exited with
            | some c =>
              ⟨r.state, OutItem.msg "\n--- Executing ZCLI Program ---" :: r.output,
               r.inputs, r.writes, some c⟩
            | none =>
              ⟨⟨r.state.vars, r.state.program_lines, st.mode, r.state.session_history,
                r.state.last_input_value⟩,
               OutItem.msg "\n--- Executing ZCLI Program ---" ::
                 (r.output ++ [OutItem.msg "--- Program Execution Complete ---\n"]),
               r.inputs, r.writes, none⟩)
         else
          ⟨⟨st.vars, st.program_lines, st.mode, st.session_history ++ ["execute"],
            st.last_input_value⟩,
           [OutItem.msg "Error: 'execute' command is only available in compiler mode."],
           inputs, [], none⟩) := rfl
    have hne : ¬(st.mode = "compiler") := by
      rw [h]; intro hc; exact absurd hc (by decide)
    rw [e, if_neg hne]
  · intro fs st inputs l rest
    rfl

/-- C5 witness: a buffered define becomes visible after execute, the mode
reverts to compiler, and in interpreter mode execute only reports the
error. -/
theorem zcli_execute_replay_witness :
    parse_and_execute_line [] ⟨[], ["define y \"1\""], "compiler", [], none⟩ [] "execute" false =
      ⟨⟨[("y", "1")], ["define y \"1\""], "compiler", ["execute"], none⟩,
       [OutItem.msg "\n--- Executing ZCLI Program ---",
        OutItem.msg "--- Program Execution Complete ---\n"], [], [], none⟩ :=
  zcli_execute_replay.1 [] ⟨[], ["define y \"1\""], "compiler", [], none⟩ [] rfl

/-- C6 counterexample: in compiler mode the line helper "x" has command
word helper, which is not one of the control commands, so per the claim it
should be buffered; the code instead matches the prefix help and executes
it immediately, leaving the buffer unchanged and printing the
unknown-command diagnostic. -/
theorem zcli_buffer_routing_cex :
    (replStep [] ⟨[], [], "compiler", [], none⟩ [] "helper \"x\"").1.state.program_lines = [] ∧
    (replStep [] ⟨[], [], "compiler", [], none⟩ [] "helper \"x\"").1.output =
      [OutItem.msg "Error: Unknown command 'helper'. Type 'help' for commands."] :=
  ⟨rfl, rfl⟩

/-- C6 (amended): in compiler mode a typed line (other than the exact word
exit) is appended verbatim to the program buffer if and only if its
color-stripped, stripped, lowered text does not start with one of the
prefixes execute, help, save, open, int, comp, exit; a line beginning with
such a prefix is executed immediately even when its command word is a
different word (helper, compare), regardless of a trailing color
directive. -/
theorem zcli_buffer_routing :
    (∀ (fs : List (String × List String)) (st : ZState) (inputs : List String) (line : String),
      st.mode = "compiler" → ¬(pyLower line = "exit") →
      replStep fs st inputs line =
        (if control_commands.any (fun c => myStartsWith (pyLower (stripColorLine line).1) c) then
          (parse_and_execute_line fs st inputs line false, false)
         else
          (⟨⟨st.vars, st.program_lines ++ [line], st.mode, st.session_history,
             st.last_input_value⟩, [], inputs, [], none⟩, false))) ∧
    (∀ (fs : List (String × List String)) (st : ZState) (inputs : List String),
      st.mode = "compiler" →
      replStep fs st inputs "compare a b" =
        (parse_and_execute_line fs st inputs "compare a b" false, false)) ∧
    (∀ (fs : List (String × List String)) (st : ZState) (inputs : List String),
      st.mode = "compiler" →
      replStep fs st inputs "greet \"hi\"" =
        (⟨⟨st.vars, st.program_lines ++ ["greet \"hi\""], st.mode, st.session_history,
           st.last_input_value⟩, [], inputs, [], none⟩, false)) ∧
    (∀ (fs : List (String × List String)) (st : ZState) (inputs : List String),
      st.mode = "compiler" →
      replStep fs st inputs "execute ((color red))" =
        (parse_and_execute_line fs st inputs "execute ((color red))" false, false)) := by
  refine ⟨?_, ?_, ?_, ?_⟩
  · intro fs st inputs line h hx
    simp only [replStep]
    rw [if_neg hx, if_pos h]
  · intro fs st inputs h
    have e : replStep fs st inputs "compare a b" =
        (if st.mode = "compiler" then
          (parse_and_execute_line fs st inputs "compare a b" false, false)
         else (parse_and_execute_line fs st inputs "compare a b" false, false)) := rfl
    rw [e, if_pos h]
  · intro fs st inputs h
    have e : replStep fs st inputs "greet \"hi\"" =
        (if st.mode = "compiler" then
          (⟨⟨st.vars, st.program_lines ++ ["greet \"hi\""], st.mode, st.session_history,
             st.last_input_value⟩, [], inputs, [], none⟩, false)
         else (parse_and_execute_line fs st inputs "greet \"hi\"" false, false)) := rfl
    rw [e, if_pos h]
  · intro fs st inputs h
    have e : replStep fs st inputs "execute ((color red))" =
        (if st.mode = "compiler" then
          (parse_and_execute_line fs st inputs "execute ((color red))" false, false)
         else (parse_and_execute_line fs st inputs "execute ((color red))" false, false)) := rfl
    rw [e, if_pos h]

/-- C6 witness: the amended routing dichotomy applied to the line helper
"x" at a concrete compiler-mode state. -/
theorem zcli_buffer_routing_witness :
    replStep [] ⟨[], [], "compiler", [], none⟩ [] "helper \"x\"" =
      (⟨⟨[], [], "compiler", ["helper \"x\""], none⟩,
        [OutItem.msg "Error: Unknown command 'helper'. Type 'help' for commands."],
        [], [], none⟩, false) := by
  have := zcli_buffer_routing.1 [] ⟨[], [], "compiler", [], none⟩ [] "helper \"x\"" rfl (by decide)
  simpa using this

/-- C1 counterexample: replaying [show (x), define y "1"] via execute (and
via the CLI file path) prints the undefined-variable diagnostic, yet the
following buffered line still executes (y becomes defined) and the process
does not exit with a non-zero status: the claimed halt and non-zero
termination do not happen. -/
theorem zcli_replay_error_halt_cex :
    (parse_and_execute_line [] ⟨[], ["show (x)", "define y \"1\""], "compiler", [], none⟩
      [] "execute" false).state.vars = [("y", "1")] ∧
    (parse_and_execute_line [] ⟨[], ["show (x)", "define y \"1\""], "compiler", [], none⟩
      [] "execute" false).exited = none ∧
    OutItem.msg "Error: Variable 'x' not defined in concatenation." ∈
      (parse_and_execute_line [] ⟨[], ["show (x)", "define y \"1\""], "compiler", [], none⟩
        [] "execute" false).output ∧
    (run_repl_file [("prog.zcli", ["show (x)", "define y \"1\""])]
      ⟨[], [], "compiler", [], none⟩ [] "prog.zcli").exited = none ∧
    (run_repl_file [("prog.zcli", ["show (x)", "define y \"1\""])]
      ⟨[], [], "compiler", [], none⟩ [] "prog.zcli").state.vars = [("y", "1")] :=
  ⟨rfl, rfl, by decide, rfl, rfl⟩

/-- C1 (amended): when a replayed line fails with one of the printed error
kinds (here the undefined-variable case), the diagnostic is printed and
that line has no effect, but replay continues with the remaining lines
from the unchanged state, and the failing line contributes no process
exit: the run's exit status is whatever the rest of the replay yields. -/
theorem zcli_replay_error_continues (fs : List (String × List String)) (st : ZState)
    (inputs : List String) (rest : List String) (h : dictGet st.vars "x" = none) :
    run_program_lines fs st inputs ("show (x)" :: rest) =
      (let r := run_program_lines fs st inputs rest
       ⟨r.state, OutItem.msg "Error: Variable 'x' not defined in concatenation." :: r.output,
        r.inputs, r.writes, r.exited⟩) := by
  have e1 : evalChainShow st.vars ["(x)"] =
      (match dictGet st.vars "x" with
       | some v => Except.ok [v]
       | none => Except.error "Error: Variable 'x' not defined in concatenation.") := rfl
  have e3 : parseExecCore noReplay fs st inputs "show (x)" true =
      ⟨st, [OutItem.msg "Error: Variable 'x' not defined in concatenation."], inputs, [], none⟩ := by
    have e2 : parseExecCore noReplay fs st inputs "show (x)" true =
        (match evalChainShow st.vars ["(x)"] with
         | Except.error e => ⟨st, [OutItem.msg e], inputs, [], none⟩
         | Except.ok l => ⟨st, show_print_step "(x)" "" (strJoin l), inputs, [], none⟩) := rfl
    rw [e2, e1, h]
  show (let r := parseExecCore noReplay fs st inputs "show (x)" true
        match r.exited with
        | some c => (⟨r.state, r.output, r.inputs, r.writes, some c⟩ : EffOut)
        | none =>
          let r2 := run_program_lines fs r.state r.inputs rest
          ⟨r2.state, r.output ++ r2.output, r2.inputs, r.writes ++ r2.writes, r2.exited⟩) = _
  rw [e3]
  rfl

/-- C1 witness: the amended continuation behaviour at a concrete state and
a concrete remaining program. -/
theorem zcli_replay_error_continues_witness :
    run_program_lines [] ⟨[], [], "interpreter", [], none⟩ [] ["show (x)", "define y \"1\""] =
      ⟨⟨[("y", "1")], [], "interpreter", [], none⟩,
       [OutItem.msg "Error: Variable 'x' not defined in concatenation."], [], [], none⟩ :=
  zcli_replay_error_continues [] ⟨[], [], "interpreter", [], none⟩ [] ["define y \"1\""] rfl

/-- C3: colon-chain evaluation fails on the first failing segment, and a
failing chain has no partial effect: a failing define leaves the variable
store untouched and prints only the diagnostic, a failing show prints no
output line (only the diagnostic), and in particular show (x) with x
undefined reports the undefined-variable error and changes no variable. -/
theorem zcli_chain_failfast_atomic :
    (∀ (st : ZState) (inputs : List String) (colorOut : List OutItem) (rt : Bool)
       (varName arg e : String),
      evalChainDefine st.vars st.last_input_value (chainParts arg) = Except.error e →
      define_branch st inputs colorOut rt varName arg =
        ⟨st, colorOut ++ [OutItem.msg e], inputs, [], none⟩) ∧
    (∀ (st : ZState) (inputs : List String) (colorCode : String) (colorOut : List OutItem)
       (arg1 arg e : String),
      evalChainShow st.vars (chainParts arg) = Except.error e →
      show_chain st inputs colorCode colorOut arg1 arg =
        ⟨st, colorOut ++ [OutItem.msg e], inputs, [], none⟩) ∧
    (∀ (vars : List (String × String)) (slot : Option String) (p : String)
       (rest : List String) (e : String),
      ¬(p = "") → evalChainDefine vars slot [p] = Except.error e →
      evalChainDefine vars slot (p :: rest) = Except.error e) ∧
    (∀ (vars : List (String × String)) (p : String) (rest : List String) (e : String),
      ¬(p = "") → evalChainShow vars [p] = Except.error e →
      evalChainShow vars (p :: rest) = Except.error e) ∧
    (∀ (st : ZState) (inputs : List String), dictGet st.vars "x" = none →
      parse_and_execute_line [] st inputs "show (x)" false =
        ⟨⟨st.vars, st.program_lines, st.mode, st.session_history ++ ["show (x)"],
          st.last_input_value⟩,
         [OutItem.msg "Error: Variable 'x' not defined in concatenation."],
         inputs, [], none⟩) := by
  refine ⟨?_, ?_, ?_, ?_, ?_⟩
  · intro st inputs colorOut rt varName arg e h
    simp only [define_branch]
    rw [h]
  · intro st inputs colorCode colorOut arg1 arg e h
    simp only [show_chain]
    rw [h]
  · intro vars slot p rest e hp h
    simp only [evalChainDefine] at h ⊢
    rw [if_neg hp] at h ⊢
    by_cases hq : (myStartsWith p "\"" && myEndsWith p "\"") = true
    · rw [if_pos hq] at h ⊢
      exact Except.noConfusion (show Except.ok [pySlice1 p] = Except.error e from h)
    · rw [if_neg hq] at h ⊢
      by_cases hi : pyLower p = "((input))"
      · rw [if_pos hi] at h ⊢
        cases slot with
        | some v => exact Except.noConfusion (show Except.ok [v] = Except.error e from h)
        | none => exact h
      · rw [if_neg hi] at h ⊢
        by_cases hpar : (myStartsWith p "(" && myEndsWith p ")") = true
        · rw [if_pos hpar] at h ⊢
          cases hd : dictGet vars (parenName p) with
          | some v =>
            rw [hd] at h
            exact Except.noConfusion (show Except.ok [v] = Except.error e from h)
          | none =>
            rw [hd] at h
            exact h
        · rw [if_neg hpar] at h ⊢
          exact h
  · intro vars p rest e hp h
    simp only [evalChainShow] at h ⊢
    rw [if_neg hp] at h ⊢
    by_cases hq : (myStartsWith p "\"" && myEndsWith p "\"") = true
    · rw [if_pos hq] at h ⊢
      exact Except.noConfusion (show Except.ok [pySlice1 p] = Except.error e from h)
    · rw [if_neg hq] at h ⊢
      by_cases hpar : (myStartsWith p "(" && myEndsWith p ")") = true
      · rw [if_pos hpar] at h ⊢
        cases hd : dictGet vars (parenName p) with
        | some v =>
          rw [hd] at h
          exact Except.noConfusion (show Except.ok [v] = Except.error e from h)
        | none =>
          rw [hd] at h
          exact h
      · rw [if_neg hpar] at h ⊢
        exact h
  · intro st inputs h
    have e1 : evalChainShow st.vars ["(x)"] =
        (match dictGet st.vars "x" with
         | some v => Except.ok [v]
         | none => Except.error "Error: Variable 'x' not defined in concatenation.") := rfl
    have e2 : parse_and_execute_line [] st inputs "show (x)" false =
        (match evalChainShow st.vars ["(x)"] with
         | Except.error e =>
           ⟨⟨st.vars, st.program_lines, st.mode, st.session_history ++ ["show (x)"],
             st.last_input_value⟩, [OutItem.msg e], inputs, [], none⟩
         | Except.ok l =>
           ⟨⟨st.vars, st.program_lines, st.mode, st.session_history ++ ["show (x)"],
             st.last_input_value⟩, show_print_step "(x)" "" (strJoin l), inputs, [], none⟩) := rfl
    rw [e2, e1, h]

/-- C3 witness: show (x) against the empty store produces only the
diagnostic and leaves the store empty. -/
theorem zcli_chain_failfast_atomic_witness :
    parse_and_execute_line [] ⟨[], [], "interpreter", [], none⟩ [] "show (x)" false =
      ⟨⟨[], [], "interpreter", ["show (x)"], none⟩,
       [OutItem.msg "Error: Variable 'x' not defined in concatenation."], [], [], none⟩ :=
  zcli_chain_failfast_atomic.2.2.2.2 ⟨[], [], "interpreter", [], none⟩ [] rfl

/-- Helper for C2: the define-chain evaluator embedded from the source
agrees, up to the diagnostic text, with the spec-side evaluation (resolve
each non-empty segment by the spec rules, failing fast). -/
theorem chain_define_matches_spec (vars : List (String × String)) (slot : Option String) :
    ∀ (parts : List String),
      chainOutcome (evalChainDefine vars slot parts) =
        spec_chain_eval (spec_resolve_define_seg vars slot)
          (parts.filter (fun q => q != "")) := by
  intro parts
  induction parts with
  | nil => rfl
  | cons p rest ih =>
    by_cases hp : p = ""
    · subst hp
      exact ih
    · have hf : (p != "") = true := bne_iff_ne.mpr hp
      have hfil : List.filter (fun q => q != "") (p :: rest) =
          p :: List.filter (fun q => q != "") rest := by
        simp [List.filter_cons, hf]
      rw [hfil]
      simp only [evalChainDefine, spec_chain_eval, spec_resolve_define_seg]
      rw [if_neg hp]
      by_cases hq : (myStartsWith p "\"" && myEndsWith p "\"") = true
      · rw [if_pos hq, if_pos hq]
        cases hrec : evalChainDefine vars slot rest with
        | error e => rw [hrec] at ih; rw [← ih]; rfl
        | ok l => rw [hrec] at ih; rw [← ih]; rfl
      · rw [if_neg hq, if_neg hq]
        by_cases hi : pyLower p = "((input))"
        · rw [if_pos hi, if_pos hi]
          cases slot with
          | some v =>
            cases hrec : evalChainDefine vars (some v) rest with
            | error e => rw [hrec] at ih; rw [← ih]; rfl
            | ok l => rw [hrec] at ih; rw [← ih]; rfl
          | none => rfl
        · rw [if_neg hi, if_neg hi]
          by_cases hpar : (myStartsWith p "(" && myEndsWith p ")") = true
          · rw [if_pos hpar, if_pos hpar]
            cases hd : dictGet vars (parenName p) with
            | some v =>
              cases hrec : evalChainDefine vars slot rest with
              | error e => rw [hrec] at ih; rw [← ih]; rfl
              | ok l => rw [hrec] at ih; rw [← ih]; rfl
            | none => rfl
          · rw [if_neg hpar, if_neg hpar]
            rfl

/-- Helper for C2: the show-chain evaluator embedded from the source
agrees, up to the diagnostic text, with the spec-side evaluation. -/
theorem chain_show_matches_spec (vars : List (String × String)) :
    ∀ (parts : List String),
      chainOutcome (evalChainShow vars parts) =
        spec_chain_eval (spec_resolve_show_seg vars)
          (parts.filter (fun q => q != "")) := by
  intro parts
  induction parts with
  | nil => rfl
  | cons p rest ih =>
    by_cases hp : p = ""
    · subst hp
      exact ih
    · have hf : (p != "") = true := bne_iff_ne.mpr hp
      have hfil : List.filter (fun q => q != "") (p :: rest) =
          p :: List.filter (fun q => q != "") rest := by
        simp [List.filter_cons, hf]
      rw [hfil]
      simp only [evalChainShow, spec_chain_eval, spec_resolve_show_seg]
      rw [if_neg hp]
      by_cases hq : (myStartsWith p "\"" && myEndsWith p "\"") = true
      · rw [if_pos hq, if_pos hq]
        cases hrec : evalChainShow vars rest with
        | error e => rw [hrec] at ih; rw [← ih]; rfl
        | ok l => rw [hrec] at ih; rw [← ih]; rfl
      · rw [if_neg hq, if_neg hq]
        by_cases hpar : (myStartsWith p "(" && myEndsWith p ")") = true
        · rw [if_pos hpar, if_pos hpar]
          cases hd : dictGet vars (parenName p) with
          | some v =>
            cases hrec : evalChainShow vars rest with
            | error e => rw [hrec] at ih; rw [← ih]; rfl
            | ok l => rw [hrec] at ih; rw [← ih]; rfl
          | none => rfl
        · rw [if_neg hpar, if_neg hpar]
          rfl

/-- C2 counterexample: in a define chain the segment ((input)) does not
resolve through the claimed variable-reference rule: with the variable
named input bound to A and the last-input slot holding B, define x
((input)) stores B (the slot), not VariableStore[input] = A. -/
theorem zcli_chain_spec_cex :
    (parse_and_execute_line [] ⟨[("input", "A")], [], "interpreter", [], some "B"⟩ []
      "define x ((input))" false).state.vars = [("input", "A"), ("x", "B")] ∧
    dictGet [("input", "A")] "input" = some "A" ∧
    ¬("B" = "A") :=
  ⟨rfl, rfl, by decide⟩

/-- C2 (amended): chain evaluation splits the raw argument at colon tokens
with optional surrounding whitespace, discards empty segments, resolves
each remaining segment (quoted segment to its contents; in a define chain
the segment ((input)), case-insensitively, to the last-input slot;
otherwise one or two layers of parentheses to the stored variable) failing
fast, and joins the results with no separator; for show this applies when
the first argument token is neither input nor ((input)).  In particular
define full (first) : " " : (last) with first Jane, last Doe stores
Jane Doe. -/
theorem zcli_chain_spec :
    (∀ (vars : List (String × String)) (slot : Option String) (s : String),
      chainOutcome (evalChainDefine vars slot (chainParts s)) =
        spec_chain_eval (spec_resolve_define_seg vars slot) (spec_split_chain s)) ∧
    (∀ (vars : List (String × String)) (s : String),
      chainOutcome (evalChainShow vars (chainParts s)) =
        spec_chain_eval (spec_resolve_show_seg vars) (spec_split_chain s)) ∧
    (parse_and_execute_line [] ⟨[("first", "Jane"), ("last", "Doe")], [], "interpreter", [], none⟩
      [] "define full (first) : \" \" : (last)" false).state.vars =
      [("first", "Jane"), ("last", "Doe"), ("full", "Jane Doe")] := by
  refine ⟨?_, ?_, rfl⟩
  · intro vars slot s
    exact chain_define_matches_spec vars slot (chainParts s)
  · intro vars s
    exact chain_show_matches_spec vars (chainParts s)
